import Mathlib

/-!
Verification of the duplicate-detection / text-similarity module
(`src/adeo-request-system-backend/src/utils/similarity.js`) of the
adeo-request-system repository.

Modelling conventions (shallow embedding):
* JavaScript strings are modelled as `List Char` (`JStr`); all inputs used in
  witnesses are ASCII, where JavaScript `toLowerCase` agrees with `Char.toLower`.
* JavaScript numbers are modelled as `ℚ`.  `Math.log` and `Math.sqrt` are kept
  as explicit function parameters `jslog jssqrt : ℚ → ℚ` of every definition
  that uses them; the only analytic fact any theorem needs is `jslog 1 = 0`,
  which holds exactly for IEEE-754 `Math.log`.  Division by zero is `0` in `ℚ`,
  matching the guards the source places in front of every division.
* A JavaScript `Set` (which the source only ever queries for membership and
  `size`) is modelled as a deduplicated list (`List.dedup`); a `Map` used as a
  vector is modelled as an association list with `find?` lookup.
* `async` orchestration is modelled by explicit state passing: the Mongo query
  of `getRecentRequests` becomes an oracle `fetch : ℕ → Except String _`
  indexed by the attempt number, `Date.now()` becomes a parameter `now`, the
  node-cache instance becomes an explicit `Option CacheEntry` parameter, and
  the `setTimeout` backoff sleeps are returned as the list of delays (in ms)
  the call would have slept.  Logging and the `metrics` object are side-effect
  free observers and are not modelled.
-/

/-- JavaScript strings, modelled as lists of characters. -/
abbrev JStr := List Char

/-- Whitespace characters matched by the JavaScript regex class `\s`
(the members relevant to this code base). -/
def jsIsWs (c : Char) : Bool :=
  c == ' ' || c == '\t' || c == '\n' || c == '\r' || c == '\x0b' || c == '\x0c'

/-- One right-fold step of `jsSplitWs`.  The state is the token list of the
suffix already processed together with a flag recording whether the character
immediately to the right was whitespace (so that a whitespace RUN contributes
a single boundary). -/
def splitWsStep (c : Char) (st : Bool × List JStr) : Bool × List JStr :=
  if jsIsWs c then
    if st.1 then st else (true, [] :: st.2)
  else
    match st.2 with
    | [] => (false, [[c]])
    | t :: ts => (false, (c :: t) :: ts)

/-- JavaScript `str.split(/\s+/)`: the string cut at maximal whitespace runs,
including the empty leading/trailing tokens JavaScript produces when the
string starts or ends with whitespace, and `[""]` on the empty string. -/
def jsSplitWs (s : JStr) : List JStr := (s.foldr splitWsStep (false, [[]])).2

/-- JavaScript `token.toLowerCase()` (agreeing on the ASCII inputs used here). -/
def jsToLower (t : JStr) : JStr := t.map Char.toLower

/-! ### Configuration constants (`CONFIG`, `SIMILARITY_THRESHOLDS`), defaults -/

/-- `CONFIG.MIN_WORD_LENGTH`, default `3`. -/
def MIN_WORD_LENGTH : ℕ := 3

/-- `CONFIG.MAX_CACHE_AGE`, default `24 * 60 * 60 * 1000` ms. -/
def MAX_CACHE_AGE : ℚ := 24 * 60 * 60 * 1000

/-- `CONFIG.BATCH_SIZE`, default `100`. -/
def BATCH_SIZE : ℕ := 100

/-- `CONFIG.RETRIES`, default `3`. -/
def RETRIES : ℕ := 3

/-- `CONFIG.RETRY_DELAY`, default `1000` ms. -/
def RETRY_DELAY : ℕ := 1000

/-- `SIMILARITY_THRESHOLDS.COMBINED`, default `0.75`. -/
def THRESHOLD_COMBINED : ℚ := 3 / 4

/-- Node-cache `stdTTL` (1 hour), converted to milliseconds: an entry written at
time `t` is evicted once `Date.now()` exceeds `t + 3600 * 1000`. -/
def STD_TTL_MS : ℤ := 3600 * 1000

/-- The `STOP_WORDS` set, in source order (the source array lists `'for'`
twice; only membership is ever queried, so the duplicate is immaterial). -/
def STOP_WORDS : List JStr :=
  [['a'], ['a','n'], ['t','h','e'],
   ['a','n','d'], ['b','u','t'], ['o','r'], ['n','o','r'], ['f','o','r'],
   ['y','e','t'], ['s','o'],
   ['i','n'], ['o','n'], ['a','t'], ['t','o'], ['f','o','r'], ['o','f'],
   ['w','i','t','h'], ['b','y']]

/-! ### Reference definition: textbook Levenshtein distance -/

/-- Standard unit-cost Levenshtein edit distance (insertion, deletion,
substitution), defined by the textbook recursion on the fronts of the lists.
This is the independent reference specification the source's two-row dynamic
program is proved against. -/
def lev : List Char → List Char → ℕ
  | [], ys => ys.length
  | _ :: xs, [] => xs.length + 1
  | x :: xs, y :: ys =>
    min (min (lev xs (y :: ys) + 1) (lev (x :: xs) ys + 1))
      (lev xs ys + (if x = y then 0 else 1))
termination_by xs ys => xs.length + ys.length
decreasing_by all_goals (simp only [List.length_cons]; omega)

/-- The row the dynamic program holds after consuming the prefix `t1`:
distances from `t1` to the prefixes of the second string extending `acc`. -/
def specRow (t1 : List Char) : List Char → List Char → List ℕ
  | acc, [] => [lev t1 acc]
  | acc, d :: ds => lev t1 acc :: specRow t1 (acc ++ [d]) ds

/-! ### `calculateLevenshteinSimilarity` (similarity.js lines 118-150) -/

/-- Inner loop of the dynamic program (`for (let j = 1; j <= len2; j++)`):
given the character `c = str1[i-1]`, the value `left = currRow[j-1]`, the
remaining characters of `str2` and the remaining window of the previous row
(starting at `prevRow[j-1]`), produce the cells `currRow[j..len2]`.  The
`min (min insertion deletion) substitution` nesting mirrors the source's
`Math.min(currRow[j-1]+1, prevRow[j]+1, prevRow[j-1]+cost)`. -/
def levStep (c : Char) : ℕ → List Char → List ℕ → List ℕ
  | left, d :: ds, p0 :: p1 :: ps =>
    let cost : ℕ := if c = d then 0 else 1
    let cell := min (min (left + 1) (p1 + 1)) (p0 + cost)
    cell :: levStep c cell ds (p1 :: ps)
  | _, _, _ => []

/-- One iteration of the outer loop (`for (let i = 1; i <= len1; i++)`): build
`currRow` from `prevRow`.  The source writes `currRow[0] = i`; since the
invariant gives `prevRow[0] = i - 1`, this is `prevRow[0] + 1`. -/
def levRow (c : Char) (s2 : List Char) (prev : List ℕ) : List ℕ :=
  (prev.headD 0 + 1) :: levStep c (prev.headD 0 + 1) s2 prev

/-- The complete two-row dynamic program of
`calculateLevenshteinSimilarity`: first row `[0, 1, ..., len2]`, one `levRow`
step per character of `str1`, answer in the last cell `prevRow[len2]`. -/
def levDP (s1 s2 : List Char) : ℕ :=
  (s1.foldl (fun prev c => levRow c s2 prev) (List.range (s2.length + 1))).getLastD 0

/-- `calculateLevenshteinSimilarity(str1, str2)` (lines 118-150): early exits
for identical and empty inputs, otherwise `1 - distance / maxLen`. -/
def calculateLevenshteinSimilarity (s1 s2 : JStr) : ℚ :=
  if s1 = s2 then 1
  else if s1.length = 0 then 0
  else if s2.length = 0 then 0
  else 1 - (levDP s1 s2 : ℚ) / (max s1.length s2.length : ℕ)

/-! ### `calculateJaccardSimilarity` (lines 155-178) -/

/-- The tokenizer inlined in `calculateJaccardSimilarity`: split on
whitespace, keep tokens of length at least `CONFIG.MIN_WORD_LENGTH`,
lower-case them, and collect into a `Set` (modelled by `dedup`).  Note it does
NOT remove stop words or numeric tokens. -/
def jaccardTokens (s : JStr) : List JStr :=
  (((jsSplitWs s).filter fun t => MIN_WORD_LENGTH ≤ t.length).map jsToLower).dedup

/-- `calculateJaccardSimilarity(str1, str2)` (lines 155-178).  The JS `Set`
intersection `[...tokens1].filter(x => tokens2.has(x))` and union
`new Set([...tokens1, ...tokens2])` become list `filter` and `dedup` of the
concatenation; only their sizes are used. -/
def calculateJaccardSimilarity (s1 s2 : JStr) : ℚ :=
  if s1 = s2 then 1
  else if s1 = [] ∨ s2 = [] then 0
  else
    let tokens1 := jaccardTokens s1
    let tokens2 := jaccardTokens s2
    if tokens1.length = 0 ∨ tokens2.length = 0 then 0
    else
      ((tokens1.filter fun t => t ∈ tokens2).length : ℚ) / ((tokens1 ++ tokens2).dedup.length : ℕ)

/-! ### `calculateCosineSimilarity` and helpers (lines 183-256) -/

/-- The tokenizer inlined in `calculateCosineSimilarity`: split on whitespace
and lower-case (no length filter, no dedup at this stage). -/
def cosineTokens (s : JStr) : List JStr := (jsSplitWs s).map jsToLower

/-- `calculateTermFrequency(tokens)` (lines 208-214): the `Map` from each
distinct token to its number of occurrences, as an association list in some
enumeration order (only looked up and summed over, so order is immaterial). -/
def calculateTermFrequency (tokens : List JStr) : List (JStr × ℕ) :=
  tokens.dedup.map fun t => (t, tokens.count t)

/-- `calculateDocumentFrequency(documents)` (lines 216-225) as a function: the
number of documents containing the term. -/
def calculateDocumentFrequency (documents : List (List JStr)) (term : JStr) : ℕ :=
  (documents.filter fun doc => decide (term ∈ doc)).length

/-- `calculateTfIdfVector(tf, df, totalDocs)` (lines 227-234):
`tfidf(term) = freq * log(totalDocs / (df.get(term) || 1))`. -/
def calculateTfIdfVector (jslog : ℚ → ℚ) (tf : List (JStr × ℕ)) (df : JStr → ℕ)
    (totalDocs : ℕ) : List (JStr × ℚ) :=
  tf.map fun p =>
    (p.1, (p.2 : ℚ) * jslog ((totalDocs : ℚ) / (if df p.1 = 0 then 1 else df p.1 : ℕ)))

/-- `Map.get` on an association-list vector (`vector2.get(term)`). -/
def vlookup (v : List (JStr × ℚ)) (t : JStr) : Option ℚ :=
  (v.find? fun p => decide (p.1 = t)).map fun p => p.2

/-- `calculateVectorSimilarity(vector1, vector2)` (lines 236-256): dot product
over the entries of `vector1` with `vector2.get(term) || 0`, magnitudes via
`Math.sqrt`, `0` if either magnitude is `0`. -/
def calculateVectorSimilarity (jssqrt : ℚ → ℚ) (v1 v2 : List (JStr × ℚ)) : ℚ :=
  let dotProduct := (v1.map fun p => p.2 * ((vlookup v2 p.1).getD 0)).sum
  let magnitude1 := jssqrt (v1.map fun p => p.2 * p.2).sum
  let magnitude2 := jssqrt (v2.map fun p => p.2 * p.2).sum
  if magnitude1 = 0 ∨ magnitude2 = 0 then 0
  else dotProduct / (magnitude1 * magnitude2)

/-- `calculateCosineSimilarity(str1, str2)` (lines 183-205): TF-IDF over the
two-document corpus `[tokens1, tokens2]` with `totalDocs = 2`, then cosine. -/
def calculateCosineSimilarity (jslog jssqrt : ℚ → ℚ) (s1 s2 : JStr) : ℚ :=
  if s1 = s2 then 1
  else if s1 = [] ∨ s2 = [] then 0
  else
    let tokens1 := cosineTokens s1
    let tokens2 := cosineTokens s2
    let tf1 := calculateTermFrequency tokens1
    let tf2 := calculateTermFrequency tokens2
    let df := calculateDocumentFrequency [tokens1, tokens2]
    let vector1 := calculateTfIdfVector jslog tf1 df 2
    let vector2 := calculateTfIdfVector jslog tf2 df 2
    calculateVectorSimilarity jssqrt vector1 vector2

/-! ### `calculateSimilarity` (lines 79-113) -/

/-- Error values thrown by the module (`AppError` instances, identified by
message; `similarityCheckFailed` also records the wrapped original error and
the reported attempt count). -/
inductive JsErr where
  /-- `AppError('Missing required parameters', 400)`. -/
  | missingParams : JsErr
  /-- `AppError('Similarity weights must sum to 1', 400)`. -/
  | weightsInvalid : JsErr
  /-- `AppError('Failed to fetch comparison data', 500, { originalError })`. -/
  | fetchFailed (message : String) : JsErr
  /-- `AppError('Failed to perform similarity check after multiple attempts', 500,
  { originalError, attempts })`. -/
  | similarityCheckFailed (original : Option JsErr) (attempts : ℕ) : JsErr

/-- Decidable equality of errors (spelled out because the nested
`Option JsErr` field defeats the deriving handler). -/
def JsErr.beqDec : (a b : JsErr) → Decidable (a = b)
  | .missingParams, .missingParams => .isTrue rfl
  | .weightsInvalid, .weightsInvalid => .isTrue rfl
  | .fetchFailed m, .fetchFailed m' =>
    if h : m = m' then .isTrue (by rw [h]) else .isFalse (by intro hc; cases hc; exact h rfl)
  | .similarityCheckFailed none k, .similarityCheckFailed none k' =>
    if h : k = k' then .isTrue (by rw [h]) else .isFalse (by intro hc; cases hc; exact h rfl)
  | .similarityCheckFailed (some e) k, .similarityCheckFailed (some e') k' =>
    match JsErr.beqDec e e' with
    | .isTrue he =>
      if h : k = k' then .isTrue (by rw [he, h])
      else .isFalse (by intro hc; cases hc; exact h rfl)
    | .isFalse he => .isFalse (by intro hc; cases hc; exact he rfl)
  | .missingParams, .weightsInvalid => .isFalse (by intro h; cases h)
  | .missingParams, .fetchFailed _ => .isFalse (by intro h; cases h)
  | .missingParams, .similarityCheckFailed _ _ => .isFalse (by intro h; cases h)
  | .weightsInvalid, .missingParams => .isFalse (by intro h; cases h)
  | .weightsInvalid, .fetchFailed _ => .isFalse (by intro h; cases h)
  | .weightsInvalid, .similarityCheckFailed _ _ => .isFalse (by intro h; cases h)
  | .fetchFailed _, .missingParams => .isFalse (by intro h; cases h)
  | .fetchFailed _, .weightsInvalid => .isFalse (by intro h; cases h)
  | .fetchFailed _, .similarityCheckFailed _ _ => .isFalse (by intro h; cases h)
  | .similarityCheckFailed _ _, .missingParams => .isFalse (by intro h; cases h)
  | .similarityCheckFailed _ _, .weightsInvalid => .isFalse (by intro h; cases h)
  | .similarityCheckFailed _ _, .fetchFailed _ => .isFalse (by intro h; cases h)
  | .similarityCheckFailed none _, .similarityCheckFailed (some _) _ =>
    .isFalse (by intro h; cases h)
  | .similarityCheckFailed (some _) _, .similarityCheckFailed none _ =>
    .isFalse (by intro h; cases h)

instance : DecidableEq JsErr := JsErr.beqDec

instance {ε α : Type} [DecidableEq ε] [DecidableEq α] : DecidableEq (Except ε α)
  | .error e, .error f =>
    if h : e = f then .isTrue (by rw [h]) else .isFalse (by intro hc; cases hc; exact h rfl)
  | .ok a, .ok b =>
    if h : a = b then .isTrue (by rw [h]) else .isFalse (by intro hc; cases hc; exact h rfl)
  | .error _, .ok _ => .isFalse (by intro h; cases h)
  | .ok _, .error _ => .isFalse (by intro h; cases h)

/-- The `options` argument of `calculateSimilarity`; `none` models an absent
property. -/
structure SimOptions where
  levenshteinWeight : Option ℚ := none
  jaccardWeight : Option ℚ := none
  cosineWeight : Option ℚ := none
deriving DecidableEq

/-- JavaScript `options.x || default`: an absent value or `0` (falsy) yields
the default. -/
def jsOrDefault (o : Option ℚ) (d : ℚ) : ℚ :=
  match o with
  | none => d
  | some q => if q = 0 then d else q

/-- `calculateSimilarity(str1, str2, options)` (lines 79-113): defaulted
weights, the `|total - 1| > 0.001` validation, then the weighted combination
of the three metric scores.  The memoization wrappers (lines 259-272) cache
pure functions and are semantically the identity, so the metrics are called
directly. -/
def calculateSimilarity (jslog jssqrt : ℚ → ℚ) (opts : SimOptions) (s1 s2 : JStr) :
    Except JsErr ℚ :=
  let wLev := jsOrDefault opts.levenshteinWeight (2/5)
  let wJac := jsOrDefault opts.jaccardWeight (3/10)
  let wCos := jsOrDefault opts.cosineWeight (3/10)
  if |wLev + wJac + wCos - 1| > 1/1000 then .error .weightsInvalid
  else
    .ok (calculateLevenshteinSimilarity s1 s2 * wLev +
         calculateJaccardSimilarity s1 s2 * wJac +
         calculateCosineSimilarity jslog jssqrt s1 s2 * wCos)

/-! ### Keyword extraction and overlap (lines 300-346) -/

/-- `isNumeric(str)` (lines 344-346): the regex `/^\d+$/`. -/
def isNumeric (w : JStr) : Bool :=
  decide (w ≠ []) && w.all fun c => decide ('0' ≤ c) && decide (c ≤ '9')

/-- `extractKeywords(text)` (lines 300-310): split on whitespace, keep tokens
of length at least `MIN_WORD_LENGTH`, drop stop words (checked before
lower-casing, as in the source), drop purely numeric tokens, lower-case, and
collect into a `Set` (modelled by `dedup`). -/
def extractKeywords (s : JStr) : List JStr :=
  if s = [] then []
  else
    (((((jsSplitWs s).filter fun w => MIN_WORD_LENGTH ≤ w.length).filter
        fun w => ¬ w ∈ STOP_WORDS).filter fun w => ¬ isNumeric w).map jsToLower).dedup

/-- `calculatePositionalImportance(words)` (lines 333-339): the mean of
`1 / (index + 1)` over the positions of the input array.  The index is the
position WITHIN the passed array, so the value depends only on the array's
length. -/
def calculatePositionalImportance (words : List JStr) : ℚ :=
  if words.length = 0 then 0
  else ((List.range words.length).map fun i => (1 : ℚ) / (i + 1)).sum / words.length

/-- `calculateKeywordOverlap(set1, set2)` (lines 315-328): Jaccard ratio of the
two keyword sets times `0.8 + 0.2 * min(positionalImportance(intersection), 1)`. -/
def calculateKeywordOverlap (set1 set2 : List JStr) : ℚ :=
  if set1.length = 0 ∨ set2.length = 0 then 0
  else
    let inter := set1.filter fun t => t ∈ set2
    let uni := (set1 ++ set2).dedup
    let positionWeight := min (calculatePositionalImportance inter) 1
    ((inter.length : ℚ) / (uni.length : ℕ)) * (4/5 + 1/5 * positionWeight)

/-- Value of `calculateKeywordOverlap` as a function of the intersection and
union cardinalities alone (used to state that keyword positions are
immaterial). -/
def overlapOfCards (i u : ℕ) : ℚ :=
  if i = 0 then 0
  else ((i : ℚ) / u) *
    (4/5 + 1/5 * min (((List.range i).map fun k => (1 : ℚ) / (k + 1)).sum / i) 1)

/-! ### `weightedSimilarityScore` (lines 404-426) -/

/-- `weightedSimilarityScore({...})` (lines 404-426) with its fixed weights
0.3, 0.25, 0.2, 0.15, 0.1 (arguments in the source's field order). -/
def weightedSimilarityScore (titleSimilarity contentSimilarity titleOverlap
    contentOverlap semanticScore : ℚ) : ℚ :=
  titleSimilarity * (3/10) +
  contentSimilarity * (1/4) +
  titleOverlap * (1/5) +
  contentOverlap * (3/20) +
  semanticScore * (1/10)

/-! ### Cache (node-cache instance, lines 42-50, 360-373, 484-497, 544-548) -/

/-- `isCacheStale(timestamp)` (lines 369-373): age exceeds
`CONFIG.MAX_CACHE_AGE` plus a 10% grace period.  (`MAX_CACHE_AGE * 0.1` is
modelled exactly as `MAX_CACHE_AGE / 10`; for integer ages and the default
constant the float comparison decides identically.) -/
def isCacheStale (now timestamp : ℤ) : Bool :=
  decide ((((now - timestamp : ℤ) : ℚ)) > MAX_CACHE_AGE + MAX_CACHE_AGE * (1/10))

/-- The department half of `generateCacheKey` (lines 360-364):
`department.toLowerCase().replace(/\s+/g, '-')` — each maximal whitespace run
becomes a single dash, which is exactly `intercalate "-"` over the `/\s+/`
split. -/
def normalizeDepartmentKey (department : JStr) : JStr :=
  List.intercalate ['-'] (jsSplitWs (jsToLower department))

/-- `generateCacheKey(title, department)` (lines 360-364), parametric in the
text normalizer applied to the title. -/
def generateCacheKey (normalize : JStr → JStr) (title department : JStr) : JStr :=
  ['s', 'i', 'm', 'i', 'l', 'a', 'r', 'i', 't', 'y', ':'] ++
    normalizeDepartmentKey department ++ [':'] ++ normalize title

/-! ### Batch scoring (`processBatch`, lines 587-659) and results -/

/-- A prior submission as consumed by the scorer (the query projects `title`
and `content`; `submissionDate` and `status` are not read afterwards). -/
structure Request where
  title : JStr
  content : JStr
deriving DecidableEq

/-- One entry of `similarRequests`: the scored comparison of the candidate
against one prior request (the per-signal values of the `details` object). -/
structure Scored where
  request : Request
  similarity : ℚ
  titleSimilarity : ℚ
  contentSimilarity : ℚ
  titleOverlap : ℚ
  contentOverlap : ℚ
deriving DecidableEq

/-- The verdict part of the value `checkForDuplicates` resolves with.  In the
duplicate case the source also rebuilds a `details` object from properties
(`mostSimilar.titleSimilarity` etc.) that do not exist on the batch items
(they live under `mostSimilar.details`), so every such field is `undefined`;
those diagnostic fields are not modelled. -/
inductive DupVerdict where
  /-- `{ isDuplicate: true, originalRequest, similarity, ... }`. -/
  | dup (original : Request) (similarity : ℚ) : DupVerdict
  /-- `{ isDuplicate: false, details: { highestSimilarity } }`. -/
  | noDup (highestSimilarity : ℚ) : DupVerdict
deriving DecidableEq

/-- The `isDuplicate` flag of a verdict. -/
def DupVerdict.isDup : DupVerdict → Bool
  | .dup _ _ => true
  | .noDup _ => false

/-- The similarity score a verdict reports: `similarity` in the duplicate
case, `details.highestSimilarity` otherwise. -/
def DupVerdict.reportedScore : DupVerdict → ℚ
  | .dup _ s => s
  | .noDup s => s

/-- The value `checkForDuplicates` resolves with: the verdict, plus the
`fromCache` flag (present and `true` only on the cache-hit path). -/
structure CheckResult where
  verdict : DupVerdict
  fromCache : Bool
deriving DecidableEq

/-- The body of `processBatch`'s `batch.map` for a single prior request
(lines 592-652): title and content similarity with their hard-coded weight
sets, keyword overlaps, the semantic score stub (`calculateSemanticSimilarity`
always resolves to `0`, lines 351-355), combined by `weightedSimilarityScore`.
A thrown error is caught per request and yields `null` (modelled `none`),
which the caller filters out. -/
def scoreRequest (jslog jssqrt : ℚ → ℚ) (normalize : JStr → JStr)
    (normalizedTitle normalizedContent : JStr)
    (titleWords contentWords : List JStr) (request : Request) : Option Scored :=
  let requestTitleNorm := normalize request.title
  let requestContentNorm := normalize request.content
  match calculateSimilarity jslog jssqrt
      { levenshteinWeight := some (1/2), jaccardWeight := some (3/10),
        cosineWeight := some (1/5) } normalizedTitle requestTitleNorm,
    calculateSimilarity jslog jssqrt
      { levenshteinWeight := some (3/10), jaccardWeight := some (3/10),
        cosineWeight := some (2/5) } normalizedContent requestContentNorm with
  | .ok titleSimilarity, .ok contentSimilarity =>
    let requestTitleWords := extractKeywords requestTitleNorm
    let requestContentWords := extractKeywords requestContentNorm
    let titleOverlap := calculateKeywordOverlap titleWords requestTitleWords
    let contentOverlap := calculateKeywordOverlap contentWords requestContentWords
    let semanticScore : ℚ := 0
    some
      { request := request
        similarity := weightedSimilarityScore titleSimilarity contentSimilarity
          titleOverlap contentOverlap semanticScore
        titleSimilarity := titleSimilarity
        contentSimilarity := contentSimilarity
        titleOverlap := titleOverlap
        contentOverlap := contentOverlap }
  | _, _ => none

/-- Structural worker for `chunkBatches`; `fuel` is initialized to the list
length, which the recursion (dropping `BATCH_SIZE ≥ 1` elements per step on a
nonempty list) never exhausts. -/
def chunkGo : ℕ → List Request → List (List Request)
  | _, [] => []
  | 0, l => [l]
  | fuel + 1, r :: rs => ((r :: rs).take BATCH_SIZE) :: chunkGo fuel ((r :: rs).drop BATCH_SIZE)

/-- Slicing of `recentRequests` into batches of `BATCH_SIZE`
(`recentRequests.slice(i, i + CONFIG.BATCH_SIZE)` in the batch loop). -/
def chunkBatches (l : List Request) : List (List Request) := chunkGo l.length l

/-- The batch loop of `checkForDuplicates` (lines 510-520): score each batch
(`Promise.all` over `batch.map`, then `.filter(Boolean)`) and concatenate the
results. -/
def batchScores (score : Request → Option Scored) (recentRequests : List Request) :
    List Scored :=
  ((chunkBatches recentRequests).map fun batch => (batch.map score).reduceOption).flatten

/-- The descending-by-similarity comparison used by
`similarRequests.sort((a, b) => b.similarity - a.similarity)`: with a stable
sort, `a` precedes `b` exactly when the comparator is nonpositive. -/
def scoredLe (a b : Scored) : Bool := decide (b.similarity ≤ a.similarity)

/-! ### `checkForDuplicates` (lines 471-582) -/

/-- One cached duplicate-check verdict: the cache key it was stored under and
the stored result object.  (The recorded `timestamp: Date.now()` of the
`{ result, timestamp }` value travels alongside as the second component of the
`CacheEntry × ℤ` pair below; it is also the node-cache insertion time
governing TTL eviction.) -/
structure CacheEntry where
  key : JStr
  result : DupVerdict
deriving DecidableEq

/-- Node-cache `cache.get(cacheKey)`: the stored entry, provided its key
matches and its TTL (`stdTTL`, 1 hour, `deleteOnExpire: true`) has not
elapsed. -/
def cacheLookup (now : ℤ) (key : JStr) : Option (CacheEntry × ℤ) → Option (CacheEntry × ℤ)
  | none => none
  | some e => if e.1.key = key ∧ ¬ (e.2 + STD_TTL_MS < now) then some e else none

/-- The scoring/selection part of the `checkForDuplicates` body
(lines 499-542): normalize the candidate, extract its keyword sets, score the
fetched requests in batches, sort descending by combined similarity
(`sort((a, b) => b.similarity - a.similarity)`, a stable sort), and threshold
the best match (`mostSimilar && mostSimilar.similarity >= COMBINED`; the
no-duplicate branch reports `mostSimilar?.similarity || 0`). -/
def computeVerdict (jslog jssqrt : ℚ → ℚ) (normalize : JStr → JStr)
    (title content : JStr) (recentRequests : List Request) : DupVerdict :=
  let normalizedTitle := normalize title
  let normalizedContent := normalize content
  let titleWords := extractKeywords normalizedTitle
  let contentWords := extractKeywords normalizedContent
  let similarRequests := batchScores
    (scoreRequest jslog jssqrt normalize normalizedTitle normalizedContent
      titleWords contentWords) recentRequests
  let sorted := similarRequests.mergeSort scoredLe
  match sorted.head? with
  | some mostSimilar =>
    if THRESHOLD_COMBINED ≤ mostSimilar.similarity then
      .dup mostSimilar.request mostSimilar.similarity
    else .noDup mostSimilar.similarity
  | none => .noDup 0

/-- One iteration of the `while (attempt <= CONFIG.RETRIES)` body of
`checkForDuplicates` (lines 476-558): validate, consult the cache, fetch the
recent requests (the `fetch` oracle is indexed by the attempt number; a
failure is `getRecentRequests`'s `AppError('Failed to fetch comparison data')`),
then score and threshold via `computeVerdict`.  The `cache.set` of the
computed result only matters across invocations and is not part of the
returned value. -/
def checkBody (jslog jssqrt : ℚ → ℚ) (normalize : JStr → JStr)
    (fetch : ℕ → Except String (List Request))
    (cacheState : Option (CacheEntry × ℤ)) (now : ℤ)
    (title department content : JStr) (attempt : ℕ) : Except JsErr CheckResult :=
  if title = [] ∨ department = [] ∨ content = [] then .error .missingParams
  else
    let cacheKey := generateCacheKey normalize title department
    let compute : Except JsErr CheckResult :=
      match fetch attempt with
      | .error msg => .error (.fetchFailed msg)
      | .ok recentRequests =>
        .ok { verdict := computeVerdict jslog jssqrt normalize title content recentRequests
              fromCache := false }
    match cacheLookup now cacheKey cacheState with
    | some e =>
      if ¬ isCacheStale now e.2 then .ok { verdict := e.1.result, fromCache := true }
      else compute
    | none => compute

/-- The retry loop of `checkForDuplicates`: runs the body for attempts
`attempt, attempt+1, ...` while `attempt ≤ retries`; on an error it sleeps
`RETRY_DELAY * attempt` (recorded in `delays`) and retries if `attempt <
retries`, otherwise breaks; outside the loop it throws
`'Failed to perform similarity check after multiple attempts'` wrapping the
last error and `CONFIG.RETRIES`.  `fuel` bounds the recursion and is
initialized to `retries`, which the loop never exceeds. -/
def runAttempts (body : ℕ → Except JsErr CheckResult) (retries retryDelay : ℕ) :
    ℕ → ℕ → Option JsErr → List ℕ → Except JsErr CheckResult × List ℕ
  | 0, _, lastError, delays => (.error (.similarityCheckFailed lastError retries), delays)
  | fuel + 1, attempt, lastError, delays =>
    if attempt ≤ retries then
      match body attempt with
      | .ok r => (.ok r, delays)
      | .error e =>
        if attempt < retries then
          runAttempts body retries retryDelay fuel (attempt + 1) (some e)
            (delays ++ [retryDelay * attempt])
        else (.error (.similarityCheckFailed (some e) retries), delays)
    else (.error (.similarityCheckFailed lastError retries), delays)

/-- `checkForDuplicates(title, department, content)` (lines 471-582) with the
default configuration: up to `RETRIES = 3` attempts starting at `attempt = 1`,
backoff `RETRY_DELAY * attempt` between failed attempts.  Returns the
resolved/rejected value together with the list of backoff delays slept. -/
def checkForDuplicates (jslog jssqrt : ℚ → ℚ) (normalize : JStr → JStr)
    (fetch : ℕ → Except String (List Request))
    (cacheState : Option (CacheEntry × ℤ)) (now : ℤ)
    (title department content : JStr) : Except JsErr CheckResult × List ℕ :=
  runAttempts (checkBody jslog jssqrt normalize fetch cacheState now title department content)
    RETRIES RETRY_DELAY RETRIES 1 none []

/-! ### Definitions taken from the specification's words (for refutation) -/

/-- The staleness bound as claim C2 states it: age exceeds the cache TTL
(default 1 hour) plus a 10% grace period.  This follows the claim's words, for
comparison against the source's `isCacheStale`. -/
def stalePerSpecTTL (ageMs : ℚ) : Prop :=
  ageMs > 3600 * 1000 + (3600 * 1000) * (1/10)

instance : DecidablePred stalePerSpecTTL := fun a => by
  unfold stalePerSpecTTL; infer_instance

/-- The Jaccard similarity as claim C4 states it: intersection over union of
the keyword sets produced by the section 4.2 extractor (`extractKeywords`),
`0` if either keyword set is empty.  This follows the claim's words, for
comparison against the source's `calculateJaccardSimilarity`. -/
def jaccardPerSpec (a b : JStr) : ℚ :=
  let A := (extractKeywords a).toFinset
  let B := (extractKeywords b).toFinset
  if A = ∅ ∨ B = ∅ then 0
  else ((A ∩ B).card : ℚ) / ((A ∪ B).card : ℕ)

/-! ## Theorems -/

theorem lev_nil_left (ys : List Char) : lev [] ys = ys.length := by
  cases ys <;> simp [lev]

theorem lev_nil_right (xs : List Char) : lev xs [] = xs.length := by
  cases xs <;> simp [lev]

theorem lev_cons_cons (x y : Char) (xs ys : List Char) :
    lev (x :: xs) (y :: ys) =
      min (min (lev xs (y :: ys) + 1) (lev (x :: xs) ys + 1))
        (lev xs ys + (if x = y then 0 else 1)) := by
  simp [lev]

theorem lev_snoc_snoc (a b : Char) (as bs : List Char) :
    lev (as ++ [a]) (bs ++ [b]) =
      min (min (lev as (bs ++ [b]) + 1) (lev (as ++ [a]) bs + 1))
        (lev as bs + (if a = b then 0 else 1)) := by
  have key : ∀ n (as bs : List Char), as.length + bs.length = n →
      lev (as ++ [a]) (bs ++ [b]) =
        min (min (lev as (bs ++ [b]) + 1) (lev (as ++ [a]) bs + 1))
          (lev as bs + (if a = b then 0 else 1)) := by
    intro n
    induction n using Nat.strong_induction_on with
    | _ n ih =>
    intro as bs hn
    rcases as with _ | ⟨a', as'⟩ <;> rcases bs with _ | ⟨b', bs'⟩
    · simp only [List.nil_append]
      rw [lev_cons_cons]
    · subst hn
      have ih1 := ih bs'.length (by simp only [List.length_nil, List.length_cons]; omega)
        [] bs' (by simp)
      simp only [List.nil_append, List.cons_append] at ih1 ⊢
      rw [lev_cons_cons a b' [] (bs' ++ [b]), lev_cons_cons a b' [] bs', ih1,
        lev_nil_left, lev_nil_left, lev_nil_left, lev_nil_left]
      simp only [List.length_append, List.length_cons, List.length_nil]
      simp only [← min_add_add_right]
      refine le_antisymm ?_ ?_ <;> simp only [le_inf_iff, inf_le_iff] <;> omega
    · subst hn
      have ih1 := ih as'.length (by simp only [List.length_nil, List.length_cons]; omega)
        as' [] (by simp)
      simp only [List.nil_append, List.cons_append] at ih1 ⊢
      rw [lev_cons_cons a' b (as' ++ [a]) [], lev_cons_cons a' b as' [], ih1,
        lev_nil_right, lev_nil_right, lev_nil_right, lev_nil_right]
      simp only [List.length_append, List.length_cons, List.length_nil]
      simp only [← min_add_add_right]
      refine le_antisymm ?_ ?_ <;> simp only [le_inf_iff, inf_le_iff] <;> omega
    · subst hn
      have ih1 := ih (as'.length + (b' :: bs').length)
        (by simp only [List.length_cons]; omega) as' (b' :: bs') rfl
      have ih2 := ih ((a' :: as').length + bs'.length)
        (by simp only [List.length_cons]; omega) (a' :: as') bs' rfl
      have ih3 := ih (as'.length + bs'.length)
        (by simp only [List.length_cons]; omega) as' bs' rfl
      simp only [List.cons_append] at ih1 ih2 ih3 ⊢
      rw [lev_cons_cons a' b' (as' ++ [a]) (bs' ++ [b]), ih1, ih2, ih3,
        lev_cons_cons a' b' as' (bs' ++ [b]), lev_cons_cons a' b' (as' ++ [a]) bs',
        lev_cons_cons a' b' as' bs']
      clear ih ih1 ih2 ih3
      simp only [← min_add_add_right]
      refine le_antisymm ?_ ?_ <;> simp only [le_inf_iff, inf_le_iff] <;> omega
  exact key _ as bs rfl

theorem specRow_head_tail (t1 acc : List Char) (rest : List Char) :
    specRow t1 acc rest = lev t1 acc :: (specRow t1 acc rest).tail := by
  cases rest <;> simp [specRow]

theorem levStep_spec (c : Char) (t1 : List Char) :
    ∀ (rest acc : List Char),
      levStep c (lev (t1 ++ [c]) acc) rest (specRow t1 acc rest) =
        (specRow (t1 ++ [c]) acc rest).tail := by
  intro rest
  induction rest with
  | nil => intro acc; rfl
  | cons d ds ihd =>
    intro acc
    rw [specRow, specRow, specRow_head_tail t1 (acc ++ [d]) ds]
    rw [levStep]
    have hcell : min (min (lev (t1 ++ [c]) acc + 1) (lev t1 (acc ++ [d]) + 1))
        (lev t1 acc + (if c = d then 0 else 1)) = lev (t1 ++ [c]) (acc ++ [d]) := by
      rw [lev_snoc_snoc]
      omega
    rw [hcell, ← specRow_head_tail t1 (acc ++ [d]) ds, ihd (acc ++ [d])]
    exact (specRow_head_tail (t1 ++ [c]) (acc ++ [d]) ds).symm

theorem levRow_spec (c : Char) (t1 s2 : List Char) :
    levRow c s2 (specRow t1 [] s2) = specRow (t1 ++ [c]) [] s2 := by
  have hhead : (specRow t1 [] s2).headD 0 = lev t1 [] := by
    cases s2 <;> simp [specRow]
  have hlen : lev t1 [] + 1 = lev (t1 ++ [c]) [] := by
    rw [lev_nil_right, lev_nil_right]
    simp
  unfold levRow
  rw [hhead, hlen, levStep_spec]
  exact (specRow_head_tail (t1 ++ [c]) [] s2).symm

theorem foldl_levRow (s2 : List Char) :
    ∀ (rest t1 : List Char),
      rest.foldl (fun prev c => levRow c s2 prev) (specRow t1 [] s2) =
        specRow (t1 ++ rest) [] s2 := by
  intro rest
  induction rest with
  | nil => intro t1; simp
  | cons c cs ihc =>
    intro t1
    simp only [List.foldl_cons]
    rw [levRow_spec, ihc (t1 ++ [c])]
    simp

theorem range_eq_specRow (s2 : List Char) :
    List.range (s2.length + 1) = specRow [] [] s2 := by
  have key : ∀ (rest acc : List Char),
      specRow [] acc rest = List.range' acc.length (rest.length + 1) := by
    intro rest
    induction rest with
    | nil =>
      intro acc
      simp [specRow, lev_nil_left, List.range']
    | cons d ds ihd =>
      intro acc
      rw [specRow, ihd (acc ++ [d])]
      simp only [lev_nil_left, List.length_append, List.length_cons, List.length_nil]
      conv_rhs => rw [List.range'_succ]
  rw [key s2 [], List.range_eq_range']
  simp

theorem specRow_getLastD (t1 : List Char) :
    ∀ (rest acc : List Char) (z : ℕ),
      (specRow t1 acc rest).getLastD z = lev t1 (acc ++ rest) := by
  intro rest
  induction rest with
  | nil => intro acc z; simp [specRow]
  | cons d ds ihd =>
    intro acc z
    rw [specRow, List.getLastD_cons, ihd (acc ++ [d])]
    simp

theorem levDP_eq_lev (s1 s2 : List Char) : levDP s1 s2 = lev s1 s2 := by
  unfold levDP
  rw [range_eq_specRow, foldl_levRow s2 s1 [], specRow_getLastD]
  simp

theorem lev_le_max (xs ys : List Char) : lev xs ys ≤ max xs.length ys.length := by
  have key : ∀ n (xs ys : List Char), xs.length + ys.length = n →
      lev xs ys ≤ max xs.length ys.length := by
    intro n
    induction n using Nat.strong_induction_on with
    | _ n ih =>
    intro xs ys hn
    rcases xs with _ | ⟨x, xs'⟩
    · simp [lev_nil_left]
    rcases ys with _ | ⟨y, ys'⟩
    · simp [lev_nil_right]
    subst hn
    have h3 := ih (xs'.length + ys'.length) (by simp only [List.length_cons]; omega)
      xs' ys' rfl
    rw [lev_cons_cons]
    by_cases hxy : x = y <;> simp only [hxy, if_true, if_false, List.length_cons] <;> omega
  exact key _ xs ys rfl

/-- C7: for nonempty distinct strings the metric is `1 - lev/max(len)`, with
the early exits for identical (1) and empty (0) inputs; `lev` is the textbook
Levenshtein recursion, and the source's two-row dynamic program computes it. -/
theorem claim_C7_levenshtein_formula (s1 s2 : JStr) :
    (s1 = s2 → calculateLevenshteinSimilarity s1 s2 = 1) ∧
    (s1 ≠ s2 → (s1 = [] ∨ s2 = []) → calculateLevenshteinSimilarity s1 s2 = 0) ∧
    (s1 ≠ [] → s2 ≠ [] → s1 ≠ s2 →
      calculateLevenshteinSimilarity s1 s2 =
        1 - (lev s1 s2 : ℚ) / (max s1.length s2.length : ℕ)) := by
  refine ⟨?_, ?_, ?_⟩
  · intro h
    simp [calculateLevenshteinSimilarity, h]
  · intro hne hor
    rcases hor with h | h <;> subst h <;>
      simp [calculateLevenshteinSimilarity, hne, Ne.symm hne]
  · intro h1 h2 hne
    rw [calculateLevenshteinSimilarity, if_neg hne, if_neg, if_neg, levDP_eq_lev]
    · exact fun h => h2 (List.length_eq_zero.mp h)
    · exact fun h => h1 (List.length_eq_zero.mp h)

theorem claim_C7_witness :
    calculateLevenshteinSimilarity ['a','b'] ['a','c'] =
      1 - (lev ['a','b'] ['a','c'] : ℚ) /
        (max (['a','b'] : List Char).length (['a','c'] : List Char).length : ℕ) :=
  (claim_C7_levenshtein_formula ['a','b'] ['a','c']).2.2 (by decide) (by decide) (by decide)

/-- C3 counterexample: on the pair of empty strings every metric hits the
identical-strings early exit and returns 1, not 0. -/
theorem claim_C3_counterexample :
    calculateLevenshteinSimilarity [] [] = 1 ∧
    calculateJaccardSimilarity [] [] = 1 ∧
    calculateCosineSimilarity (fun _ => 0) (fun _ => 0) [] [] = 1 ∧
    (1 : ℚ) ≠ 0 := by
  refine ⟨?_, ?_, ?_, ?_⟩
  · simp [calculateLevenshteinSimilarity]
  · simp [calculateJaccardSimilarity]
  · simp [calculateCosineSimilarity]
  · norm_num

/-- C3 amended: for every NONEMPTY string `s`, each metric on `(s, "")`
returns 0; on `("", "")` the identical-strings rule wins and all return 1. -/
theorem claim_C3_empty_second_zero (jslog jssqrt : ℚ → ℚ) (s : JStr) (h : s ≠ []) :
    calculateLevenshteinSimilarity s [] = 0 ∧
    calculateJaccardSimilarity s [] = 0 ∧
    calculateCosineSimilarity jslog jssqrt s [] = 0 := by
  refine ⟨?_, ?_, ?_⟩
  · simp [calculateLevenshteinSimilarity, h, List.length_eq_zero]
  · simp [calculateJaccardSimilarity, h]
  · simp [calculateCosineSimilarity, h]

theorem claim_C3_witness :
    calculateLevenshteinSimilarity ['a'] [] = 0 ∧
    calculateJaccardSimilarity ['a'] [] = 0 ∧
    calculateCosineSimilarity (fun _ => 0) (fun _ => 0) ['a'] [] = 0 :=
  claim_C3_empty_second_zero (fun _ => 0) (fun _ => 0) ['a'] (by decide)

theorem calculateVectorSimilarity_eq_zero (jssqrt : ℚ → ℚ) (v1 v2 : List (JStr × ℚ))
    (h : (v1.map fun p => p.2 * ((vlookup v2 p.1).getD 0)).sum = 0) :
    calculateVectorSimilarity jssqrt v1 v2 = 0 := by
  unfold calculateVectorSimilarity
  rw [h]
  show (if jssqrt (List.map (fun p => p.2 * p.2) v1).sum = 0 ∨
      jssqrt (List.map (fun p => p.2 * p.2) v2).sum = 0 then (0 : ℚ)
    else 0 / (jssqrt (List.map (fun p => p.2 * p.2) v1).sum *
      jssqrt (List.map (fun p => p.2 * p.2) v2).sum)) = 0
  split
  · rfl
  · exact zero_div _

theorem tfidf_dot_zero (jslog : ℚ → ℚ) (hlog : jslog 1 = 0) (tokens1 tokens2 : List JStr) :
    ((calculateTfIdfVector jslog (calculateTermFrequency tokens1)
        (calculateDocumentFrequency [tokens1, tokens2]) 2).map fun p =>
      p.2 * (((vlookup (calculateTfIdfVector jslog (calculateTermFrequency tokens2)
        (calculateDocumentFrequency [tokens1, tokens2]) 2) p.1).getD 0))).sum = 0 := by
  apply List.sum_eq_zero
  intro x hx
  obtain ⟨p, hp, hfx⟩ := List.mem_map.mp hx
  obtain ⟨q, hq, hgp⟩ := List.mem_map.mp hp
  obtain ⟨t, ht, hqt⟩ := List.mem_map.mp hq
  subst hfx
  subst hgp
  subst hqt
  have htm : t ∈ tokens1 := List.mem_dedup.mp ht
  by_cases h2 : t ∈ tokens2
  · have hdf : calculateDocumentFrequency [tokens1, tokens2] t = 2 := by
      unfold calculateDocumentFrequency
      simp [htm, h2]
    simp only [hdf]
    norm_num [hlog]
  · have hnone : vlookup (calculateTfIdfVector jslog (calculateTermFrequency tokens2)
        (calculateDocumentFrequency [tokens1, tokens2]) 2) t = none := by
      unfold vlookup
      rw [List.find?_eq_none.mpr]
      · rfl
      · intro q2 hq2
        obtain ⟨r, hr, hrq⟩ := List.mem_map.mp hq2
        obtain ⟨u, hu, hur⟩ := List.mem_map.mp hr
        subst hrq
        subst hur
        simp only [decide_eq_true_eq]
        intro hc
        exact h2 (hc ▸ List.mem_dedup.mp hu)
    simp [hnone]

theorem cosine_zero_of_ne (jslog jssqrt : ℚ → ℚ) (hlog : jslog 1 = 0) (s1 s2 : JStr)
    (hne : s1 ≠ s2) : calculateCosineSimilarity jslog jssqrt s1 s2 = 0 := by
  unfold calculateCosineSimilarity
  rw [if_neg hne]
  by_cases he : s1 = [] ∨ s2 = []
  · rw [if_pos he]
  · rw [if_neg he]
    exact calculateVectorSimilarity_eq_zero jssqrt _ _
      (tfidf_dot_zero jslog hlog (cosineTokens s1) (cosineTokens s2))

theorem cosine_self_one (jslog jssqrt : ℚ → ℚ) (s : JStr) :
    calculateCosineSimilarity jslog jssqrt s s = 1 := by
  unfold calculateCosineSimilarity
  rw [if_pos rfl]

/-- C5: because IDF is computed over the two-document corpus, shared terms get
IDF `log 1 = 0` and unshared terms miss the other vector, so the cosine of the
TF-IDF vectors of two DISTINCT strings is always exactly 0; the metric yields
1 only through the identical-strings early exit.  `jslog` is the model of
`Math.log`, for which `log 1 = 0` holds exactly. -/
theorem claim_C5_cosine_degenerate (jslog jssqrt : ℚ → ℚ) (hlog : jslog 1 = 0)
    (a b : JStr) :
    (a ≠ b → calculateCosineSimilarity jslog jssqrt a b = 0) ∧
    calculateCosineSimilarity jslog jssqrt a a = 1 :=
  ⟨fun hne => cosine_zero_of_ne jslog jssqrt hlog a b hne,
   cosine_self_one jslog jssqrt a⟩

theorem claim_C5_witness :
    calculateCosineSimilarity (fun _ => 0) (fun _ => 0) ['x'] ['y'] = 0 ∧
    calculateCosineSimilarity (fun _ => 0) (fun _ => 0) ['x'] ['x'] = 1 :=
  ⟨(claim_C5_cosine_degenerate (fun _ => 0) (fun _ => 0) rfl ['x'] ['y']).1 (by decide),
   (claim_C5_cosine_degenerate (fun _ => 0) (fun _ => 0) rfl ['x'] ['x']).2⟩

theorem extractKeywords_nodup (s : JStr) : (extractKeywords s).Nodup := by
  unfold extractKeywords
  split
  · exact List.nodup_nil
  · exact List.nodup_dedup _

theorem list_inter_length_eq_card (t1 t2 : List JStr) (h1 : t1.Nodup) :
    (t1.filter fun t => t ∈ t2).length = (t1.toFinset ∩ t2.toFinset).card := by
  rw [← List.toFinset_card_of_nodup (h1.filter _)]
  congr 1
  ext x
  simp only [List.mem_toFinset, Finset.mem_inter, List.mem_filter, decide_eq_true_eq]

theorem list_union_length_eq_card (t1 t2 : List JStr) :
    (t1 ++ t2).dedup.length = (t1.toFinset ∪ t2.toFinset).card := by
  rw [← List.toFinset_append, List.card_toFinset]

/-- C4 counterexample: the source's Jaccard metric tokenizes with only a
length filter, so on "the cat" vs "the dog" it scores 1/3, while the claim's
formula over section 4.2 keyword sets (which drop the stop word "the") gives
0. -/
theorem claim_C4_counterexample :
    calculateJaccardSimilarity ['t','h','e',' ','c','a','t'] ['t','h','e',' ','d','o','g']
      = 1/3 ∧
    jaccardPerSpec ['t','h','e',' ','c','a','t'] ['t','h','e',' ','d','o','g'] = 0 ∧
    (1/3 : ℚ) ≠ 0 := by
  refine ⟨?_, ?_, by norm_num⟩
  · unfold calculateJaccardSimilarity
    rw [if_neg (by decide), if_neg (by decide)]
    show (if (jaccardTokens ['t','h','e',' ','c','a','t']).length = 0 ∨
        (jaccardTokens ['t','h','e',' ','d','o','g']).length = 0 then (0 : ℚ)
      else (((jaccardTokens ['t','h','e',' ','c','a','t']).filter fun t =>
          t ∈ jaccardTokens ['t','h','e',' ','d','o','g']).length : ℚ) /
        (((jaccardTokens ['t','h','e',' ','c','a','t'] ++
          jaccardTokens ['t','h','e',' ','d','o','g']).dedup.length : ℕ) : ℚ)) = 1/3
    rw [if_neg (by decide)]
    rw [show ((jaccardTokens ['t','h','e',' ','c','a','t']).filter fun t =>
        t ∈ jaccardTokens ['t','h','e',' ','d','o','g']).length = 1 from by decide]
    rw [show (jaccardTokens ['t','h','e',' ','c','a','t'] ++
        jaccardTokens ['t','h','e',' ','d','o','g']).dedup.length = 3 from by decide]
    norm_num
  · unfold jaccardPerSpec
    rw [if_neg (by simp only [List.toFinset_eq_empty_iff]; decide)]
    rw [← list_inter_length_eq_card _ _ (extractKeywords_nodup _)]
    rw [show ((extractKeywords ['t','h','e',' ','c','a','t']).filter fun t =>
        t ∈ extractKeywords ['t','h','e',' ','d','o','g']).length = 0 from by decide]
    rw [Nat.cast_zero]
    exact zero_div _

theorem jaccardTokens_nodup (s : JStr) : (jaccardTokens s).Nodup :=
  List.nodup_dedup _

/-- C4 amended: the source's Jaccard metric does satisfy the
intersection-over-union formula with the empty-set clause, but over the token
sets of ITS OWN tokenizer (whitespace split, minimum-length filter,
lower-casing) — not the section 4.2 keyword extractor: stop words and numeric
tokens are NOT discarded. -/
theorem claim_C4_jaccard_formula (a b : JStr) (hne : a ≠ b) (ha : a ≠ []) (hb : b ≠ []) :
    calculateJaccardSimilarity a b =
      (if (jaccardTokens a).toFinset = ∅ ∨ (jaccardTokens b).toFinset = ∅ then 0
       else (((jaccardTokens a).toFinset ∩ (jaccardTokens b).toFinset).card : ℚ) /
         ((((jaccardTokens a).toFinset ∪ (jaccardTokens b).toFinset).card : ℕ) : ℚ)) := by
  unfold calculateJaccardSimilarity
  rw [if_neg hne, if_neg (by rintro (h | h) <;> [exact ha h; exact hb h])]
  show (if (jaccardTokens a).length = 0 ∨ (jaccardTokens b).length = 0 then (0 : ℚ)
    else (((jaccardTokens a).filter fun t => t ∈ jaccardTokens b).length : ℚ) /
      (((jaccardTokens a ++ jaccardTokens b).dedup.length : ℕ) : ℚ)) = _
  have hea : (jaccardTokens a).toFinset = ∅ ↔ (jaccardTokens a).length = 0 := by
    rw [List.toFinset_eq_empty_iff, List.length_eq_zero]
  have heb : (jaccardTokens b).toFinset = ∅ ↔ (jaccardTokens b).length = 0 := by
    rw [List.toFinset_eq_empty_iff, List.length_eq_zero]
  by_cases hempty : (jaccardTokens a).length = 0 ∨ (jaccardTokens b).length = 0
  · rw [if_pos hempty, if_pos (by rcases hempty with h | h; exacts [.inl (hea.mpr h), .inr (heb.mpr h)])]
  · rw [if_neg hempty, if_neg (by rw [hea, heb]; exact hempty)]
    rw [list_inter_length_eq_card _ _ (jaccardTokens_nodup a), list_union_length_eq_card]

theorem claim_C4_witness :
    calculateJaccardSimilarity ['t','h','e',' ','c','a','t'] ['t','h','e',' ','d','o','g'] =
      (if (jaccardTokens ['t','h','e',' ','c','a','t']).toFinset = ∅ ∨
          (jaccardTokens ['t','h','e',' ','d','o','g']).toFinset = ∅ then 0
       else (((jaccardTokens ['t','h','e',' ','c','a','t']).toFinset ∩
           (jaccardTokens ['t','h','e',' ','d','o','g']).toFinset).card : ℚ) /
         ((((jaccardTokens ['t','h','e',' ','c','a','t']).toFinset ∪
           (jaccardTokens ['t','h','e',' ','d','o','g']).toFinset).card : ℕ) : ℚ)) :=
  claim_C4_jaccard_formula _ _ (by decide) (by decide) (by decide)

theorem positionalImportance_congr (ws ws2 : List JStr) (h : ws.length = ws2.length) :
    calculatePositionalImportance ws = calculatePositionalImportance ws2 := by
  unfold calculatePositionalImportance
  rw [h]

theorem keywordOverlap_eq_overlapOfCards (t1 t2 : List JStr) (h1 : t1.Nodup)
    (h2 : t2.Nodup) :
    calculateKeywordOverlap t1 t2 =
      overlapOfCards (t1.toFinset ∩ t2.toFinset).card (t1.toFinset ∪ t2.toFinset).card := by
  unfold calculateKeywordOverlap overlapOfCards
  have hinter := list_inter_length_eq_card t1 t2 h1
  by_cases hg : t1.length = 0 ∨ t2.length = 0
  · rw [if_pos hg]
    have hcard : (t1.toFinset ∩ t2.toFinset).card = 0 := by
      rcases hg with h | h <;> replace h := List.length_eq_zero.mp h <;> subst h <;>
        simp
    rw [if_pos hcard]
  · rw [if_neg hg]
    by_cases hi : (t1.toFinset ∩ t2.toFinset).card = 0
    · rw [if_pos hi]
      rw [hi] at hinter
      show ((t1.filter fun t => t ∈ t2).length : ℚ) /
          (((t1 ++ t2).dedup.length : ℕ) : ℚ) *
          (4/5 + 1/5 * min (calculatePositionalImportance (t1.filter fun t => t ∈ t2)) 1)
          = 0
      rw [hinter, Nat.cast_zero, zero_div, zero_mul]
    · rw [if_neg hi]
      show ((t1.filter fun t => t ∈ t2).length : ℚ) /
          (((t1 ++ t2).dedup.length : ℕ) : ℚ) *
          (4/5 + 1/5 * min (calculatePositionalImportance (t1.filter fun t => t ∈ t2)) 1)
          = _
      rw [list_union_length_eq_card, hinter]
      congr 2
      unfold calculatePositionalImportance
      rw [hinter, if_neg hi]

/-- C6 corrected: the positional-importance boost depends only on the NUMBER
of intersecting keywords (the index used is the position inside the
intersection array, not the position in the original text), so the overlap
signal is a function of the intersection and union cardinalities alone. -/
theorem claim_C6_overlap_position_free (t1 t2 u1 u2 : List JStr)
    (h1 : t1.Nodup) (h2 : t2.Nodup) (h3 : u1.Nodup) (h4 : u2.Nodup)
    (hi : (t1.toFinset ∩ t2.toFinset).card = (u1.toFinset ∩ u2.toFinset).card)
    (hu : (t1.toFinset ∪ t2.toFinset).card = (u1.toFinset ∪ u2.toFinset).card) :
    calculateKeywordOverlap t1 t2 = calculateKeywordOverlap u1 u2 := by
  rw [keywordOverlap_eq_overlapOfCards t1 t2 h1 h2,
    keywordOverlap_eq_overlapOfCards u1 u2 h3 h4, hi, hu]

/-- C6 counterexample: two pairs of texts with the same intersection and union
sizes, where the shared keyword is FIRST in both texts of the first pair and
LAST in both texts of the second; the boosted overlap is identical, refuting
the claim that earlier text positions receive a larger boost. -/
theorem claim_C6_counterexample :
    extractKeywords ['a','a','a',' ','b','b','b'] = [['a','a','a'], ['b','b','b']] ∧
    extractKeywords ['b','b','b',' ','a','a','a'] = [['b','b','b'], ['a','a','a']] ∧
    calculateKeywordOverlap (extractKeywords ['a','a','a',' ','b','b','b'])
        (extractKeywords ['a','a','a',' ','c','c','c']) =
      calculateKeywordOverlap (extractKeywords ['b','b','b',' ','a','a','a'])
        (extractKeywords ['c','c','c',' ','a','a','a']) ∧
    ¬ (calculateKeywordOverlap (extractKeywords ['a','a','a',' ','b','b','b'])
        (extractKeywords ['a','a','a',' ','c','c','c']) >
      calculateKeywordOverlap (extractKeywords ['b','b','b',' ','a','a','a'])
        (extractKeywords ['c','c','c',' ','a','a','a'])) := by
  have heq : calculateKeywordOverlap (extractKeywords ['a','a','a',' ','b','b','b'])
        (extractKeywords ['a','a','a',' ','c','c','c']) =
      calculateKeywordOverlap (extractKeywords ['b','b','b',' ','a','a','a'])
        (extractKeywords ['c','c','c',' ','a','a','a']) := by
    rw [keywordOverlap_eq_overlapOfCards _ _ (extractKeywords_nodup _) (extractKeywords_nodup _),
      keywordOverlap_eq_overlapOfCards _ _ (extractKeywords_nodup _) (extractKeywords_nodup _)]
    rw [show ((extractKeywords ['a','a','a',' ','b','b','b']).toFinset ∩
        (extractKeywords ['a','a','a',' ','c','c','c']).toFinset).card = 1 by
      rw [← list_inter_length_eq_card _ _ (extractKeywords_nodup _)]; decide]
    rw [show ((extractKeywords ['b','b','b',' ','a','a','a']).toFinset ∩
        (extractKeywords ['c','c','c',' ','a','a','a']).toFinset).card = 1 by
      rw [← list_inter_length_eq_card _ _ (extractKeywords_nodup _)]; decide]
    rw [show ((extractKeywords ['a','a','a',' ','b','b','b']).toFinset ∪
        (extractKeywords ['a','a','a',' ','c','c','c']).toFinset).card = 3 by
      rw [← list_union_length_eq_card]; decide]
    rw [show ((extractKeywords ['b','b','b',' ','a','a','a']).toFinset ∪
        (extractKeywords ['c','c','c',' ','a','a','a']).toFinset).card = 3 by
      rw [← list_union_length_eq_card]; decide]
  exact ⟨by decide, by decide, heq, fun hgt => absurd heq (ne_of_gt hgt)⟩

theorem claim_C6_witness :
    calculateKeywordOverlap (extractKeywords ['x','x','x',' ','y','y','y'])
        (extractKeywords ['x','x','x',' ','z','z','z']) =
      calculateKeywordOverlap (extractKeywords ['y','y','y',' ','x','x','x'])
        (extractKeywords ['z','z','z',' ','x','x','x']) :=
  claim_C6_overlap_position_free _ _ _ _
    (extractKeywords_nodup _) (extractKeywords_nodup _)
    (extractKeywords_nodup _) (extractKeywords_nodup _)
    (by rw [← list_inter_length_eq_card _ _ (extractKeywords_nodup _),
          ← list_inter_length_eq_card _ _ (extractKeywords_nodup _)]; decide)
    (by rw [← list_union_length_eq_card, ← list_union_length_eq_card]; decide)

theorem levenshteinSimilarity_mem_unit (s1 s2 : JStr) :
    0 ≤ calculateLevenshteinSimilarity s1 s2 ∧ calculateLevenshteinSimilarity s1 s2 ≤ 1 := by
  unfold calculateLevenshteinSimilarity
  split_ifs with h1 h2 h3
  · norm_num
  · norm_num
  · norm_num
  · rw [levDP_eq_lev]
    have hle := lev_le_max s1 s2
    have hmax : 0 < max s1.length s2.length := by
      rcases Nat.eq_zero_or_pos s1.length with h | h
      · exact absurd h h2
      · omega
    have h0 : (0 : ℚ) < ((max s1.length s2.length : ℕ) : ℚ) := by exact_mod_cast hmax
    have hcast : (lev s1 s2 : ℚ) ≤ ((max s1.length s2.length : ℕ) : ℚ) := by
      exact_mod_cast hle
    have hub : (lev s1 s2 : ℚ) / ((max s1.length s2.length : ℕ) : ℚ) ≤ 1 := by
      rw [div_le_one h0]; exact hcast
    have hlb : 0 ≤ (lev s1 s2 : ℚ) / ((max s1.length s2.length : ℕ) : ℚ) :=
      div_nonneg (by positivity) (le_of_lt h0)
    constructor <;> linarith

theorem jaccardSimilarity_mem_unit (s1 s2 : JStr) :
    0 ≤ calculateJaccardSimilarity s1 s2 ∧ calculateJaccardSimilarity s1 s2 ≤ 1 := by
  unfold calculateJaccardSimilarity
  split_ifs with h1 h2
  · norm_num
  · norm_num
  · simp only []
    split_ifs with h3
    · norm_num
    rw [list_inter_length_eq_card _ _ (jaccardTokens_nodup s1), list_union_length_eq_card]
    have hsub : ((jaccardTokens s1).toFinset ∩ (jaccardTokens s2).toFinset).card ≤
        ((jaccardTokens s1).toFinset ∪ (jaccardTokens s2).toFinset).card :=
      Finset.card_le_card (Finset.inter_subset_left.trans Finset.subset_union_left)
    constructor
    · exact div_nonneg (by positivity) (by positivity)
    · rcases Nat.eq_zero_or_pos ((jaccardTokens s1).toFinset ∪ (jaccardTokens s2).toFinset).card
        with hz | hp
      · rw [hz]
        norm_num
      · rw [div_le_one (by exact_mod_cast hp)]
        exact_mod_cast hsub

theorem cosineSimilarity_mem_unit (jslog jssqrt : ℚ → ℚ) (hlog : jslog 1 = 0)
    (s1 s2 : JStr) :
    0 ≤ calculateCosineSimilarity jslog jssqrt s1 s2 ∧
      calculateCosineSimilarity jslog jssqrt s1 s2 ≤ 1 := by
  by_cases h : s1 = s2
  · subst h
    rw [cosine_self_one]
    norm_num
  · rw [cosine_zero_of_ne jslog jssqrt hlog s1 s2 h]
    norm_num

/-- C8 amended: with NONNEGATIVE (defaulted) weights summing to 1, the
three-metric combiner validates the weights and returns a value in [0,1]
(its component scores always lie in [0,1]); the five-signal combiner with its
fixed weights 0.3/0.25/0.2/0.15/0.1 maps component scores in [0,1] into
[0,1].  Without the nonnegativity restriction the bound fails (see the
counterexample). -/
theorem claim_C8_combination_range :
    (∀ jslog jssqrt : ℚ → ℚ, jslog 1 = 0 → ∀ (opts : SimOptions) (s1 s2 : JStr),
      0 ≤ jsOrDefault opts.levenshteinWeight (2/5) →
      0 ≤ jsOrDefault opts.jaccardWeight (3/10) →
      0 ≤ jsOrDefault opts.cosineWeight (3/10) →
      jsOrDefault opts.levenshteinWeight (2/5) + jsOrDefault opts.jaccardWeight (3/10) +
        jsOrDefault opts.cosineWeight (3/10) = 1 →
      ∃ v, calculateSimilarity jslog jssqrt opts s1 s2 = .ok v ∧ 0 ≤ v ∧ v ≤ 1) ∧
    (∀ titleSimilarity contentSimilarity titleOverlap contentOverlap semanticScore : ℚ,
      0 ≤ titleSimilarity → titleSimilarity ≤ 1 →
      0 ≤ contentSimilarity → contentSimilarity ≤ 1 →
      0 ≤ titleOverlap → titleOverlap ≤ 1 →
      0 ≤ contentOverlap → contentOverlap ≤ 1 →
      0 ≤ semanticScore → semanticScore ≤ 1 →
      0 ≤ weightedSimilarityScore titleSimilarity contentSimilarity titleOverlap
          contentOverlap semanticScore ∧
        weightedSimilarityScore titleSimilarity contentSimilarity titleOverlap
          contentOverlap semanticScore ≤ 1) := by
  constructor
  · intro jslog jssqrt hlog opts s1 s2 hw1 hw2 hw3 hsum
    unfold calculateSimilarity
    simp only []
    rw [if_neg (by rw [hsum]; norm_num)]
    refine ⟨_, rfl, ?_, ?_⟩
    · have hL := levenshteinSimilarity_mem_unit s1 s2
      have hJ := jaccardSimilarity_mem_unit s1 s2
      have hC := cosineSimilarity_mem_unit jslog jssqrt hlog s1 s2
      have m1 := mul_nonneg hL.1 hw1
      have m2 := mul_nonneg hJ.1 hw2
      have m3 := mul_nonneg hC.1 hw3
      linarith
    · have hL := levenshteinSimilarity_mem_unit s1 s2
      have hJ := jaccardSimilarity_mem_unit s1 s2
      have hC := cosineSimilarity_mem_unit jslog jssqrt hlog s1 s2
      have m1 := mul_le_of_le_one_left hw1 hL.2
      have m2 := mul_le_of_le_one_left hw2 hJ.2
      have m3 := mul_le_of_le_one_left hw3 hC.2
      linarith
  · intro ts cs tov cov sem h1 h2 h3 h4 h5 h6 h7 h8 h9 h10
    unfold weightedSimilarityScore
    constructor
    · have m1 : 0 ≤ ts * (3/10) := by nlinarith
      have m2 : 0 ≤ cs * (1/4) := by nlinarith
      have m3 : 0 ≤ tov * (1/5) := by nlinarith
      have m4 : 0 ≤ cov * (3/20) := by nlinarith
      have m5 : 0 ≤ sem * (1/10) := by nlinarith
      linarith
    · have m1 : ts * (3/10) ≤ 3/10 := by nlinarith
      have m2 : cs * (1/4) ≤ 1/4 := by nlinarith
      have m3 : tov * (1/5) ≤ 1/5 := by nlinarith
      have m4 : cov * (3/20) ≤ 3/20 := by nlinarith
      have m5 : sem * (1/10) ≤ 1/10 := by nlinarith
      linarith

theorem claim_C8_witness :
    ∃ v, calculateSimilarity (fun _ => 0) (fun _ => 0)
        { levenshteinWeight := some (1/2), jaccardWeight := some (1/4),
          cosineWeight := some (1/4) } ['a','b'] ['a','c'] = .ok v ∧ 0 ≤ v ∧ v ≤ 1 :=
  claim_C8_combination_range.1 (fun _ => 0) (fun _ => 0) rfl
    { levenshteinWeight := some (1/2), jaccardWeight := some (1/4),
      cosineWeight := some (1/4) } ['a','b'] ['a','c']
    (by norm_num [jsOrDefault]) (by norm_num [jsOrDefault]) (by norm_num [jsOrDefault])
    (by norm_num [jsOrDefault])

/-- C8 counterexample: the claim quantifies over ANY weight map summing to 1.
With weights 1.7, -1, 0.3 (sum exactly 1, accepted by the validation) on the
pair "aab"/"aac" — whose component scores 2/3, 0, 0 all lie in [0,1] — the
combination is 17/15 > 1. -/
theorem claim_C8_counterexample :
    calculateSimilarity (fun _ => 0) (fun _ => 0)
      { levenshteinWeight := some (17/10), jaccardWeight := some (-1),
        cosineWeight := some (3/10) } ['a','a','b'] ['a','a','c'] = .ok (17/15) ∧
    (17/10 : ℚ) + (-1) + 3/10 = 1 ∧
    calculateLevenshteinSimilarity ['a','a','b'] ['a','a','c'] = 2/3 ∧
    calculateJaccardSimilarity ['a','a','b'] ['a','a','c'] = 0 ∧
    calculateCosineSimilarity (fun _ => 0) (fun _ => 0) ['a','a','b'] ['a','a','c'] = 0 ∧
    ¬ ((17/15 : ℚ) ≤ 1) := by
  have hL : calculateLevenshteinSimilarity ['a','a','b'] ['a','a','c'] = 2/3 := by
    unfold calculateLevenshteinSimilarity
    rw [if_neg (by decide), if_neg (by decide), if_neg (by decide),
      show levDP ['a','a','b'] ['a','a','c'] = 1 from by decide,
      show max (['a','a','b'] : List Char).length (['a','a','c'] : List Char).length = 3
        from by decide]
    norm_num
  have hJ : calculateJaccardSimilarity ['a','a','b'] ['a','a','c'] = 0 := by
    unfold calculateJaccardSimilarity
    rw [if_neg (by decide), if_neg (by decide)]
    show (if (jaccardTokens ['a','a','b']).length = 0 ∨
        (jaccardTokens ['a','a','c']).length = 0 then (0 : ℚ)
      else (((jaccardTokens ['a','a','b']).filter fun t =>
          t ∈ jaccardTokens ['a','a','c']).length : ℚ) /
        (((jaccardTokens ['a','a','b'] ++ jaccardTokens ['a','a','c']).dedup.length : ℕ) : ℚ))
      = 0
    rw [if_neg (by decide),
      show ((jaccardTokens ['a','a','b']).filter fun t =>
        t ∈ jaccardTokens ['a','a','c']).length = 0 from by decide]
    rw [Nat.cast_zero]
    exact zero_div _
  have hC : calculateCosineSimilarity (fun _ => 0) (fun _ => 0) ['a','a','b'] ['a','a','c'] = 0 :=
    cosine_zero_of_ne (fun _ => 0) (fun _ => 0) rfl _ _ (by decide)
  refine ⟨?_, by norm_num, hL, hJ, hC, by norm_num⟩
  unfold calculateSimilarity
  simp only []
  rw [show jsOrDefault (some (17/10)) (2/5) = 17/10 from by norm_num [jsOrDefault],
    show jsOrDefault (some (-1)) (3/10) = -1 from by norm_num [jsOrDefault],
    show jsOrDefault (some (3/10)) (3/10) = 3/10 from by norm_num [jsOrDefault]]
  rw [if_neg (by norm_num), hL, hJ, hC]
  norm_num

theorem checkBody_invalid (jslog jssqrt : ℚ → ℚ) (normalize : JStr → JStr)
    (fetch : ℕ → Except String (List Request)) (cacheState : Option (CacheEntry × ℤ))
    (now : ℤ) (title department content : JStr) (attempt : ℕ)
    (h : title = [] ∨ department = [] ∨ content = []) :
    checkBody jslog jssqrt normalize fetch cacheState now title department content attempt =
      .error .missingParams := by
  unfold checkBody
  rw [if_pos h]

theorem checkBody_cacheHit (jslog jssqrt : ℚ → ℚ) (normalize : JStr → JStr)
    (fetch : ℕ → Except String (List Request)) (now : ℤ)
    (title department content : JStr) (e : CacheEntry) (ts : ℤ) (attempt : ℕ)
    (ht : title ≠ []) (hd : department ≠ []) (hc : content ≠ [])
    (hkey : e.key = generateCacheKey normalize title department)
    (hfresh : ¬ (ts + STD_TTL_MS < now)) :
    checkBody jslog jssqrt normalize fetch (some (e, ts)) now title department content
      attempt = .ok { verdict := e.result, fromCache := true } := by
  have hst : isCacheStale now ts = false := by
    rw [isCacheStale, decide_eq_false_iff_not, not_lt]
    have hle : (now - ts : ℤ) ≤ 3600 * 1000 := by
      unfold STD_TTL_MS at hfresh
      omega
    have hle2 : ((now - ts : ℤ) : ℚ) ≤ 3600 * 1000 := by exact_mod_cast hle
    unfold MAX_CACHE_AGE
    linarith
  unfold checkBody
  rw [if_neg (by rintro (h | h | h) <;> [exact ht h; exact hd h; exact hc h])]
  simp only [cacheLookup]
  rw [if_pos ⟨hkey, hfresh⟩]
  simp [hst]

theorem checkBody_nocache_fetch_error (jslog jssqrt : ℚ → ℚ) (normalize : JStr → JStr)
    (fetch : ℕ → Except String (List Request)) (now : ℤ)
    (title department content : JStr) (attempt : ℕ) (msg : String)
    (ht : title ≠ []) (hd : department ≠ []) (hc : content ≠ [])
    (hf : fetch attempt = .error msg) :
    checkBody jslog jssqrt normalize fetch none now title department content attempt =
      .error (.fetchFailed msg) := by
  unfold checkBody
  rw [if_neg (by rintro (h | h | h) <;> [exact ht h; exact hd h; exact hc h])]
  simp only [cacheLookup, hf]

theorem checkBody_nocache_fetch_ok (jslog jssqrt : ℚ → ℚ) (normalize : JStr → JStr)
    (fetch : ℕ → Except String (List Request)) (now : ℤ)
    (title department content : JStr) (attempt : ℕ) (reqs : List Request)
    (ht : title ≠ []) (hd : department ≠ []) (hc : content ≠ [])
    (hf : fetch attempt = .ok reqs) :
    checkBody jslog jssqrt normalize fetch none now title department content attempt =
      .ok { verdict := computeVerdict jslog jssqrt normalize title content reqs
            fromCache := false } := by
  unfold checkBody
  rw [if_neg (by rintro (h | h | h) <;> [exact ht h; exact hd h; exact hc h])]
  simp only [cacheLookup, hf]

theorem runAttempts_default (body : ℕ → Except JsErr CheckResult) (d : ℕ) :
    runAttempts body 3 d 3 1 none [] =
      match body 1 with
      | .ok r => (.ok r, [])
      | .error _ =>
        match body 2 with
        | .ok r => (.ok r, [d * 1])
        | .error _ =>
          match body 3 with
          | .ok r => (.ok r, [d * 1, d * 2])
          | .error e3 => (.error (.similarityCheckFailed (some e3) 3), [d * 1, d * 2]) :=
  rfl

/-- C1 corrected: a missing/empty parameter does NOT fail fast — the
validation sits inside the retry loop, so the `Missing required parameters`
error is raised on every one of the 3 attempts, backoff delays of
`RETRY_DELAY * 1` and `RETRY_DELAY * 2` ms are slept between attempts, and the
error finally surfaced is the retry-exhaustion wrapper
(`similarityCheckFailed`) carrying the validation error and the attempt
count. -/
theorem claim_C1_missing_params_retried (jslog jssqrt : ℚ → ℚ) (normalize : JStr → JStr)
    (fetch : ℕ → Except String (List Request)) (cacheState : Option (CacheEntry × ℤ))
    (now : ℤ) (title department content : JStr)
    (h : title = [] ∨ department = [] ∨ content = []) :
    checkForDuplicates jslog jssqrt normalize fetch cacheState now title department content =
      (.error (.similarityCheckFailed (some .missingParams) RETRIES),
        [RETRY_DELAY * 1, RETRY_DELAY * 2]) := by
  have hb := checkBody_invalid jslog jssqrt normalize fetch cacheState now
    title department content
  unfold checkForDuplicates
  rw [show RETRIES = 3 from rfl, runAttempts_default, hb 1 h, hb 2 h, hb 3 h]

theorem claim_C1_counterexample :
    checkForDuplicates (fun _ => 0) (fun _ => 0) id (fun _ => .ok []) none 0
        [] ['d'] ['c'] =
      (.error (.similarityCheckFailed (some .missingParams) 3), [1000, 2000]) ∧
    checkForDuplicates (fun _ => 0) (fun _ => 0) id (fun _ => .ok []) none 0
        [] ['d'] ['c'] ≠
      (.error .missingParams, ([] : List ℕ)) := by
  constructor <;> decide

theorem claim_C1_witness :
    checkForDuplicates (fun _ => 0) (fun _ => 0) id (fun _ => .ok []) none 0
        ['t'] [] ['c'] =
      (.error (.similarityCheckFailed (some .missingParams) RETRIES),
        [RETRY_DELAY * 1, RETRY_DELAY * 2]) :=
  claim_C1_missing_params_retried (fun _ => 0) (fun _ => 0) id (fun _ => .ok []) none 0
    ['t'] [] ['c'] (by decide)

/-- C2 corrected: `isCacheStale` measures its bound against
`CONFIG.MAX_CACHE_AGE` (default 24 h), not the cache TTL (default 1 h): an
entry is treated as stale exactly when its age exceeds 95 040 000 ms
(24 h plus the 10% grace).  Any entry still inside the node-cache TTL window
is therefore never stale, and a second identical check (same title and
department, hence same cache key) returns the cached verdict tagged
`fromCache := true`, with no backoff and independently of the fetch oracle. -/
theorem claim_C2_cache_reuse :
    (∀ now ts : ℤ, isCacheStale now ts = true ↔ ((now - ts : ℤ) : ℚ) > 95040000) ∧
    (∀ now ts : ℤ, ¬ (ts + STD_TTL_MS < now) → isCacheStale now ts = false) ∧
    (∀ (jslog jssqrt : ℚ → ℚ) (normalize : JStr → JStr)
        (fetch : ℕ → Except String (List Request)) (now : ℤ)
        (title department content : JStr) (e : CacheEntry) (ts : ℤ),
      title ≠ [] → department ≠ [] → content ≠ [] →
      e.key = generateCacheKey normalize title department →
      ¬ (ts + STD_TTL_MS < now) →
      checkForDuplicates jslog jssqrt normalize fetch (some (e, ts)) now title
        department content = (.ok { verdict := e.result, fromCache := true }, [])) := by
  refine ⟨?_, ?_, ?_⟩
  · intro now ts
    rw [isCacheStale, decide_eq_true_iff]
    unfold MAX_CACHE_AGE
    constructor <;> intro h <;> linarith
  · intro now ts hfresh
    rw [isCacheStale, decide_eq_false_iff_not, not_lt]
    have hle : (now - ts : ℤ) ≤ 3600 * 1000 := by
      unfold STD_TTL_MS at hfresh
      omega
    have hle2 : ((now - ts : ℤ) : ℚ) ≤ 3600 * 1000 := by exact_mod_cast hle
    unfold MAX_CACHE_AGE
    linarith
  · intro jslog jssqrt normalize fetch now title department content e ts ht hd hc hkey hfresh
    have hb := checkBody_cacheHit jslog jssqrt normalize fetch now title department
      content e ts 1 ht hd hc hkey hfresh
    unfold checkForDuplicates
    rw [show RETRIES = 3 from rfl, runAttempts_default, hb]

theorem claim_C2_witness :
    checkForDuplicates (fun _ => 0) (fun _ => 0) id (fun _ => .ok [])
        (some (⟨generateCacheKey id ['t'] ['d'], .noDup 0⟩, 0)) 1000
        ['t'] ['d'] ['c'] =
      (.ok { verdict := .noDup 0, fromCache := true }, []) :=
  claim_C2_cache_reuse.2.2 (fun _ => 0) (fun _ => 0) id (fun _ => .ok []) 1000
    ['t'] ['d'] ['c'] ⟨generateCacheKey id ['t'] ['d'], .noDup 0⟩ 0
    (by decide) (by decide) (by decide) rfl (by decide)

/-- C2 counterexample: at age 2 hours (7 200 000 ms) the claim's bound
(TTL 1 h plus 10%) says stale, but the source's `isCacheStale` (24 h plus 10%)
says fresh. -/
theorem claim_C2_counterexample :
    stalePerSpecTTL 7200000 ∧ isCacheStale 7200000 0 = false := by
  constructor
  · unfold stalePerSpecTTL
    norm_num
  · rw [isCacheStale, decide_eq_false_iff_not, not_lt]
    unfold MAX_CACHE_AGE
    norm_num

/-- C9: if retrieval fails on attempts 1 and 2 and succeeds on attempt 3, the
call resolves with a valid verdict after sleeping the linearly increasing
backoff delays `RETRY_DELAY * 1` and `RETRY_DELAY * 2`; only when every
attempt fails does it reject with the retry-exhaustion error wrapping the last
underlying fetch error and the attempt count. -/
theorem claim_C9_retry_then_succeed (jslog jssqrt : ℚ → ℚ) (normalize : JStr → JStr)
    (fetch : ℕ → Except String (List Request)) (now : ℤ)
    (title department content : JStr) (m1 m2 : String)
    (ht : title ≠ []) (hd : department ≠ []) (hc : content ≠ [])
    (h1 : fetch 1 = .error m1) (h2 : fetch 2 = .error m2) :
    (∀ reqs : List Request, fetch 3 = .ok reqs →
      checkForDuplicates jslog jssqrt normalize fetch none now title department content =
        (.ok { verdict := computeVerdict jslog jssqrt normalize title content reqs
               fromCache := false }, [RETRY_DELAY * 1, RETRY_DELAY * 2])) ∧
    (∀ m3 : String, fetch 3 = .error m3 →
      checkForDuplicates jslog jssqrt normalize fetch none now title department content =
        (.error (.similarityCheckFailed (some (.fetchFailed m3)) RETRIES),
          [RETRY_DELAY * 1, RETRY_DELAY * 2])) := by
  have hb1 := checkBody_nocache_fetch_error jslog jssqrt normalize fetch now title
    department content 1 m1 ht hd hc h1
  have hb2 := checkBody_nocache_fetch_error jslog jssqrt normalize fetch now title
    department content 2 m2 ht hd hc h2
  constructor
  · intro reqs h3
    have hb3 := checkBody_nocache_fetch_ok jslog jssqrt normalize fetch now title
      department content 3 reqs ht hd hc h3
    unfold checkForDuplicates
    rw [show RETRIES = 3 from rfl, runAttempts_default, hb1, hb2, hb3]
  · intro m3 h3
    have hb3 := checkBody_nocache_fetch_error jslog jssqrt normalize fetch now title
      department content 3 m3 ht hd hc h3
    unfold checkForDuplicates
    rw [show RETRIES = 3 from rfl, runAttempts_default, hb1, hb2, hb3]

theorem claim_C9_witness :
    checkForDuplicates (fun _ => 0) (fun _ => 0) id
        (fun k => if k < 3 then .error "socket hang up" else .ok []) none 0
        ['t'] ['d'] ['c'] =
      (.ok { verdict := computeVerdict (fun _ => 0) (fun _ => 0) id ['t'] ['c'] []
             fromCache := false }, [RETRY_DELAY * 1, RETRY_DELAY * 2]) :=
  (claim_C9_retry_then_succeed (fun _ => 0) (fun _ => 0) id
      (fun k => if k < 3 then .error "socket hang up" else .ok []) 0
      ['t'] ['d'] ['c'] "socket hang up" "socket hang up"
      (by decide) (by decide) (by decide) rfl rfl).1 [] rfl

theorem chunkGo_flatten : ∀ (fuel : ℕ) (l : List Request), l.length ≤ fuel →
    (chunkGo fuel l).flatten = l := by
  intro fuel
  induction fuel with
  | zero =>
    intro l hl
    cases l with
    | nil => rfl
    | cons r rs => simp at hl
  | succ fuel ih =>
    intro l hl
    cases l with
    | nil => rfl
    | cons r rs =>
      show ((r :: rs).take BATCH_SIZE :: chunkGo fuel ((r :: rs).drop BATCH_SIZE)).flatten
        = r :: rs
      rw [List.flatten_cons, ih _ (by
        simp only [List.length_drop, List.length_cons, BATCH_SIZE]
        simp only [List.length_cons] at hl
        omega), List.take_append_drop]

theorem batchScores_eq_filterMap (score : Request → Option Scored) (l : List Request) :
    batchScores score l = l.filterMap score := by
  unfold batchScores chunkBatches
  have hbatch : ∀ b : List Request, (b.map score).reduceOption = b.filterMap score := by
    intro b
    simp [List.reduceOption, List.filterMap_map]
  calc ((chunkGo l.length l).map fun b => (b.map score).reduceOption).flatten
      = ((chunkGo l.length l).map fun b => b.filterMap score).flatten := by
        rw [List.map_congr_left fun b _ => hbatch b]
    _ = ((chunkGo l.length l).flatten).filterMap score := by
        rw [List.filterMap_flatten]
    _ = l.filterMap score := by rw [chunkGo_flatten l.length l le_rfl]

theorem scoredLe_trans (a b c : Scored) (hab : scoredLe a b) (hbc : scoredLe b c) :
    scoredLe a c := by
  simp only [scoredLe, decide_eq_true_eq] at hab hbc ⊢
  exact le_trans hbc hab

theorem scoredLe_total (a b : Scored) : scoredLe a b || scoredLe b a := by
  simp only [scoredLe]
  rcases le_total a.similarity b.similarity with h | h <;> simp [h]

theorem mergeSort_head_is_max (l : List Scored) (m : Scored)
    (hm : (l.mergeSort scoredLe).head? = some m) :
    m ∈ l ∧ ∀ x ∈ l, x.similarity ≤ m.similarity := by
  have hperm : List.Perm (l.mergeSort scoredLe) l := List.mergeSort_perm l scoredLe
  have hsorted := List.sorted_mergeSort scoredLe_trans scoredLe_total l
  cases hms : l.mergeSort scoredLe with
  | nil =>
    rw [hms] at hm
    cases hm
  | cons m0 rest =>
    rw [hms] at hm hperm hsorted
    have hm0 : m0 = m := by simpa using hm
    subst hm0
    constructor
    · exact hperm.subset (List.mem_cons_self _ _)
    · intro x hx
      have hx2 : x ∈ m0 :: rest := hperm.mem_iff.mpr hx
      rcases List.mem_cons.mp hx2 with h | h
      · rw [h]
      · have := (List.pairwise_cons.mp hsorted).1 x h
        simpa [scoredLe] using this

theorem computeVerdict_perm (jslog jssqrt : ℚ → ℚ) (normalize : JStr → JStr)
    (title content : JStr) (reqs reqs2 : List Request)
    (hperm : List.Perm reqs reqs2) :
    (computeVerdict jslog jssqrt normalize title content reqs).isDup =
      (computeVerdict jslog jssqrt normalize title content reqs2).isDup ∧
    (computeVerdict jslog jssqrt normalize title content reqs).reportedScore =
      (computeVerdict jslog jssqrt normalize title content reqs2).reportedScore := by
  unfold computeVerdict
  simp only []
  simp only [batchScores_eq_filterMap]
  have hS : List.Perm
      (reqs.filterMap (scoreRequest jslog jssqrt normalize (normalize title)
        (normalize content) (extractKeywords (normalize title))
        (extractKeywords (normalize content))))
      (reqs2.filterMap (scoreRequest jslog jssqrt normalize (normalize title)
        (normalize content) (extractKeywords (normalize title))
        (extractKeywords (normalize content)))) :=
    hperm.filterMap _
  cases h1 : ((reqs.filterMap (scoreRequest jslog jssqrt normalize (normalize title)
      (normalize content) (extractKeywords (normalize title))
      (extractKeywords (normalize content)))).mergeSort scoredLe).head? with
  | none =>
    have hnil : reqs.filterMap (scoreRequest jslog jssqrt normalize (normalize title)
        (normalize content) (extractKeywords (normalize title))
        (extractKeywords (normalize content))) = [] := by
      have := List.head?_eq_none_iff.mp h1
      have hp := List.mergeSort_perm (reqs.filterMap (scoreRequest jslog jssqrt normalize
        (normalize title) (normalize content) (extractKeywords (normalize title))
        (extractKeywords (normalize content)))) scoredLe
      rw [this] at hp
      exact (List.Perm.nil_eq hp).symm
    have hnil2 : reqs2.filterMap (scoreRequest jslog jssqrt normalize (normalize title)
        (normalize content) (extractKeywords (normalize title))
        (extractKeywords (normalize content))) = [] := by
      rw [hnil] at hS
      exact (List.Perm.nil_eq hS).symm
    rw [hnil2]
    simp
  | some m =>
    have hmax := mergeSort_head_is_max _ m h1
    cases h2 : ((reqs2.filterMap (scoreRequest jslog jssqrt normalize (normalize title)
        (normalize content) (extractKeywords (normalize title))
        (extractKeywords (normalize content)))).mergeSort scoredLe).head? with
    | none =>
      have hnil2 : reqs2.filterMap (scoreRequest jslog jssqrt normalize (normalize title)
          (normalize content) (extractKeywords (normalize title))
          (extractKeywords (normalize content))) = [] := by
        have := List.head?_eq_none_iff.mp h2
        have hp := List.mergeSort_perm (reqs2.filterMap (scoreRequest jslog jssqrt normalize
          (normalize title) (normalize content) (extractKeywords (normalize title))
          (extractKeywords (normalize content)))) scoredLe
        rw [this] at hp
        exact (List.Perm.nil_eq hp).symm
      rw [hnil2] at hS
      have : m ∈ ([] : List Scored) := hS.subset hmax.1
      cases this
    | some m2 =>
      have hmax2 := mergeSort_head_is_max _ m2 h2
      have heq : m.similarity = m2.similarity :=
        le_antisymm (hmax2.2 m (hS.subset hmax.1)) (hmax.2 m2 (hS.symm.subset hmax2.1))
      have hth2 : (THRESHOLD_COMBINED ≤ m2.similarity) ↔
          (THRESHOLD_COMBINED ≤ m.similarity) := by rw [heq]
      by_cases hth : THRESHOLD_COMBINED ≤ m.similarity
      · simp [DupVerdict.isDup, DupVerdict.reportedScore, hth, hth2.mpr hth, heq]
      · simp [DupVerdict.isDup, DupVerdict.reportedScore, hth, heq,
          show ¬ THRESHOLD_COMBINED ≤ m2.similarity from fun h => hth (hth2.mp h)]

/-- C10: the duplicate/no-duplicate flag and the reported combined score are
invariant under permutation of the retrieved candidate list — they depend
only on the maximum combined score of the scored set.  (The matched request
itself may differ between tied candidates, which is why the conclusion speaks
of the flag and the score.) -/
theorem claim_C10_order_invariance (jslog jssqrt : ℚ → ℚ) (normalize : JStr → JStr)
    (now : ℤ) (title department content : JStr) (reqs reqs2 : List Request)
    (ht : title ≠ []) (hd : department ≠ []) (hc : content ≠ [])
    (hperm : List.Perm reqs reqs2) :
    ∃ r r2 : CheckResult,
      checkForDuplicates jslog jssqrt normalize (fun _ => .ok reqs) none now title
        department content = (.ok r, []) ∧
      checkForDuplicates jslog jssqrt normalize (fun _ => .ok reqs2) none now title
        department content = (.ok r2, []) ∧
      r.verdict.isDup = r2.verdict.isDup ∧
      r.verdict.reportedScore = r2.verdict.reportedScore := by
  refine ⟨{ verdict := computeVerdict jslog jssqrt normalize title content reqs
            fromCache := false },
          { verdict := computeVerdict jslog jssqrt normalize title content reqs2
            fromCache := false }, ?_, ?_, ?_, ?_⟩
  · have hb := checkBody_nocache_fetch_ok jslog jssqrt normalize (fun _ => .ok reqs) now
      title department content 1 reqs ht hd hc rfl
    unfold checkForDuplicates
    rw [show RETRIES = 3 from rfl, runAttempts_default, hb]
  · have hb := checkBody_nocache_fetch_ok jslog jssqrt normalize (fun _ => .ok reqs2) now
      title department content 1 reqs2 ht hd hc rfl
    unfold checkForDuplicates
    rw [show RETRIES = 3 from rfl, runAttempts_default, hb]
  · exact (computeVerdict_perm jslog jssqrt normalize title content reqs reqs2 hperm).1
  · exact (computeVerdict_perm jslog jssqrt normalize title content reqs reqs2 hperm).2

theorem claim_C10_witness :
    ∃ r r2 : CheckResult,
      checkForDuplicates (fun _ => 0) (fun _ => 0) id
          (fun _ => .ok [⟨['u'], ['v']⟩, ⟨['w'], ['x']⟩]) none 0 ['t'] ['d'] ['c'] =
        (.ok r, []) ∧
      checkForDuplicates (fun _ => 0) (fun _ => 0) id
          (fun _ => .ok [⟨['w'], ['x']⟩, ⟨['u'], ['v']⟩]) none 0 ['t'] ['d'] ['c'] =
        (.ok r2, []) ∧
      r.verdict.isDup = r2.verdict.isDup ∧
      r.verdict.reportedScore = r2.verdict.reportedScore :=
  claim_C10_order_invariance (fun _ => 0) (fun _ => 0) id 0 ['t'] ['d'] ['c']
    [⟨['u'], ['v']⟩, ⟨['w'], ['x']⟩] [⟨['w'], ['x']⟩, ⟨['u'], ['v']⟩]
    (by decide) (by decide) (by decide) (List.Perm.swap _ _ _)
